import Mathlib

/-!
Verification of the TransitMesh bus-tracker trust-scoring logic against its
specification.  The code under scrutiny is `BusTruthAgent.evaluate_location`
in `src/bus_tracker.py` (lines 14-30) together with the caller's inline
severity-tier thresholding (lines 78-83).  The Python function takes a raw
GPS status string, a driver-face boolean, a driver-mobile status string and
a passenger mesh count (a Python integer), and returns a triple
`(confidence, status label, message)`.
-/

/-- The result triple `(confidence, status label, message)` returned by
`BusTruthAgent.evaluate_location`. -/
structure Verdict where
  confidence : Int
  status : String
  message : String
  deriving DecidableEq, Repr

/-- Shallow embedding of `BusTruthAgent.evaluate_location`
(src/bus_tracker.py, lines 14-30), branch for branch.  Strings model the
Python strings compared with `==`; `Int` models the Python integer mesh
count. -/
def evaluate_location (hw_gps : String) (driver_face_active : Bool)
    (driver_mobile : String) (mesh_passengers : Int) : Verdict :=
  if hw_gps = "OFFLINE" then
    if driver_face_active = true ∧ driver_mobile = "ON_ROUTE" then
      if mesh_passengers ≥ 3 then
        ⟨98, "VERIFIED BY RIDER MESH",
          "SUCCESS: High-confidence location via passenger & driver mesh."⟩
      else if mesh_passengers > 0 then
        ⟨75, "PROBABLE LOCATION",
          "CAUTION: Hardware down. Location estimated via driver and few riders."⟩
      else
        ⟨45, "STATUS UNCERTAIN",
          "WARNING: Hardware down. Only driver mobile detected."⟩
    else
      ⟨5, "GHOST BUS ALERT",
        "ERROR: No reliable signal from bus, driver, or mesh. Likely out of service."⟩
  else
    ⟨100, "HARDWARE LIVE", "Bus is actively broadcasting GPS signal."⟩

/-- The hardware-live verdict (line 30 of the source). -/
def vLive : Verdict :=
  ⟨100, "HARDWARE LIVE", "Bus is actively broadcasting GPS signal."⟩

/-- The rider-mesh-verified verdict (line 21 of the source). -/
def vMesh : Verdict :=
  ⟨98, "VERIFIED BY RIDER MESH",
    "SUCCESS: High-confidence location via passenger & driver mesh."⟩

/-- The probable-location verdict (line 23 of the source). -/
def vProbable : Verdict :=
  ⟨75, "PROBABLE LOCATION",
    "CAUTION: Hardware down. Location estimated via driver and few riders."⟩

/-- The status-uncertain verdict (line 25 of the source). -/
def vUncertain : Verdict :=
  ⟨45, "STATUS UNCERTAIN",
    "WARNING: Hardware down. Only driver mobile detected."⟩

/-- The ghost-bus verdict (line 27 of the source). -/
def vGhost : Verdict :=
  ⟨5, "GHOST BUS ALERT",
    "ERROR: No reliable signal from bus, driver, or mesh. Likely out of service."⟩

/-- Severity tiers produced by the dashboard's inline thresholding. -/
inductive Tier
  | POSITIVE
  | CAUTION
  | ERROR
  deriving DecidableEq, Repr

/-- Shallow embedding of the caller's inline severity thresholding
(src/bus_tracker.py, lines 78-83): `conf > 80` renders success, otherwise
`conf > 40` renders warning, otherwise error. -/
def tierOf (confidence : Int) : Tier :=
  if confidence > 80 then Tier.POSITIVE
  else if confidence > 40 then Tier.CAUTION
  else Tier.ERROR

/-- Normalization of the raw GPS status into the declared enum domain,
matching the source's observable behaviour: anything other than the exact
string "OFFLINE" behaves as LIVE. -/
def normalizeHw (hw : String) : String :=
  if hw = "OFFLINE" then "OFFLINE" else "LIVE"

/-- Normalization of the raw driver-mobile status into the declared enum
domain, matching the source's observable behaviour: anything other than the
exact string "ON_ROUTE" behaves as UNKNOWN. -/
def normalizeMobile (m : String) : String :=
  if m = "ON_ROUTE" then "ON_ROUTE" else "UNKNOWN"

/-- Normalization of the raw mesh count to a non-negative integer. -/
def normalizeMesh (n : Int) : Int := max n 0

lemma evaluate_cases (hw : String) (face : Bool) (mobile : String)
    (mesh : Int) :
    evaluate_location hw face mobile mesh = vLive ∨
    evaluate_location hw face mobile mesh = vMesh ∨
    evaluate_location hw face mobile mesh = vProbable ∨
    evaluate_location hw face mobile mesh = vUncertain ∨
    evaluate_location hw face mobile mesh = vGhost := by
  unfold evaluate_location vLive vMesh vProbable vUncertain vGhost
  split_ifs <;> simp

lemma evaluate_offline_route_conf (mesh : Int) :
    (evaluate_location "OFFLINE" true "ON_ROUTE" mesh).confidence =
      if 3 ≤ mesh then 98 else if 0 < mesh then 75 else 45 := by
  unfold evaluate_location
  rw [if_pos rfl, if_pos ⟨rfl, rfl⟩]
  split_ifs <;> rfl

/-- C1: for every snapshot with hardware GPS LIVE, `evaluate_location`
returns confidence 100, label "HARDWARE LIVE" and the message "Bus is
actively broadcasting GPS signal.", regardless of the driver-face flag, the
driver-mobile status and the passenger mesh count. -/
theorem evaluate_live_full_trust (face : Bool) (mobile : String)
    (mesh : Int) :
    evaluate_location "LIVE" face mobile mesh = vLive := by
  unfold evaluate_location
  rw [if_neg (by decide)]
  rfl

/-- C2: for every snapshot with hardware GPS OFFLINE where the driver face
is not verified or the driver mobile is not ON_ROUTE, `evaluate_location`
returns confidence 5 and label "GHOST BUS ALERT" for every mesh count. -/
theorem evaluate_ghost_bus (face : Bool) (mobile : String) (mesh : Int)
    (h : face = false ∨ mobile ≠ "ON_ROUTE") :
    evaluate_location "OFFLINE" face mobile mesh = vGhost := by
  unfold evaluate_location
  rw [if_pos rfl, if_neg]
  · rfl
  · rcases h with h | h <;> simp [h]

theorem evaluate_ghost_bus_witness :
    ((false = false ∨ "ON_ROUTE" ≠ "ON_ROUTE") ∧
      evaluate_location "OFFLINE" false "ON_ROUTE" 20 = vGhost) ∧
    ((true = false ∨ "UNKNOWN" ≠ "ON_ROUTE") ∧
      evaluate_location "OFFLINE" true "UNKNOWN" 10 = vGhost) :=
  ⟨⟨Or.inl rfl, evaluate_ghost_bus false "ON_ROUTE" 20 (Or.inl rfl)⟩,
   ⟨Or.inr (by decide), evaluate_ghost_bus true "UNKNOWN" 10 (Or.inr (by decide))⟩⟩

/-- C3: with hardware GPS OFFLINE, driver face verified and driver mobile
ON_ROUTE, the confidence is a non-decreasing step function of the mesh
count with exactly three plateaus over the non-negative integers:
mesh count 0 gives 45 ("STATUS UNCERTAIN"), mesh count 1 or 2 gives 75
("PROBABLE LOCATION"), and mesh count at least 3 gives 98
("VERIFIED BY RIDER MESH"). -/
theorem evaluate_mesh_plateaus :
    (∀ mesh : Int, mesh = 0 →
      evaluate_location "OFFLINE" true "ON_ROUTE" mesh = vUncertain) ∧
    (∀ mesh : Int, 1 ≤ mesh → mesh ≤ 2 →
      evaluate_location "OFFLINE" true "ON_ROUTE" mesh = vProbable) ∧
    (∀ mesh : Int, 3 ≤ mesh →
      evaluate_location "OFFLINE" true "ON_ROUTE" mesh = vMesh) ∧
    (∀ m n : Int, 0 ≤ m → m ≤ n →
      (evaluate_location "OFFLINE" true "ON_ROUTE" m).confidence ≤
        (evaluate_location "OFFLINE" true "ON_ROUTE" n).confidence) := by
  refine ⟨?_, ?_, ?_, ?_⟩
  · intro mesh h
    subst h
    rfl
  · intro mesh h1 h2
    unfold evaluate_location
    rw [if_pos rfl, if_pos ⟨rfl, rfl⟩, if_neg (by omega), if_pos (by omega)]
    rfl
  · intro mesh h
    unfold evaluate_location
    rw [if_pos rfl, if_pos ⟨rfl, rfl⟩, if_pos h]
    rfl
  · intro m n hm hmn
    rw [evaluate_offline_route_conf, evaluate_offline_route_conf]
    split_ifs <;> omega

theorem evaluate_mesh_plateaus_witness :
    evaluate_location "OFFLINE" true "ON_ROUTE" 0 = vUncertain ∧
    evaluate_location "OFFLINE" true "ON_ROUTE" 2 = vProbable ∧
    evaluate_location "OFFLINE" true "ON_ROUTE" 5 = vMesh ∧
    (evaluate_location "OFFLINE" true "ON_ROUTE" 1).confidence ≤
      (evaluate_location "OFFLINE" true "ON_ROUTE" 4).confidence :=
  ⟨evaluate_mesh_plateaus.1 0 rfl,
   evaluate_mesh_plateaus.2.1 2 (by decide) (by decide),
   evaluate_mesh_plateaus.2.2.1 5 (by decide),
   evaluate_mesh_plateaus.2.2.2 1 4 (by decide) (by decide)⟩

/-- C4: `evaluate_location` is total over the declared input domain: for
every hardware GPS status in LIVE, OFFLINE, every boolean driver-face flag,
every driver-mobile status in ON_ROUTE, UNKNOWN and every non-negative mesh
count it returns one of the five defined verdicts; no error branch exists. -/
theorem evaluate_total (hw : String) (face : Bool) (mobile : String)
    (mesh : Int)
    (hhw : hw = "LIVE" ∨ hw = "OFFLINE")
    (hmob : mobile = "ON_ROUTE" ∨ mobile = "UNKNOWN")
    (hmesh : 0 ≤ mesh) :
    evaluate_location hw face mobile mesh = vLive ∨
    evaluate_location hw face mobile mesh = vMesh ∨
    evaluate_location hw face mobile mesh = vProbable ∨
    evaluate_location hw face mobile mesh = vUncertain ∨
    evaluate_location hw face mobile mesh = vGhost :=
  evaluate_cases hw face mobile mesh

theorem evaluate_total_witness :
    (("LIVE" : String) = "LIVE" ∨ ("LIVE" : String) = "OFFLINE") ∧
    (("UNKNOWN" : String) = "ON_ROUTE" ∨ ("UNKNOWN" : String) = "UNKNOWN") ∧
    (0 : Int) ≤ 0 ∧
    (evaluate_location "LIVE" false "UNKNOWN" 0 = vLive ∨
      evaluate_location "LIVE" false "UNKNOWN" 0 = vMesh ∨
      evaluate_location "LIVE" false "UNKNOWN" 0 = vProbable ∨
      evaluate_location "LIVE" false "UNKNOWN" 0 = vUncertain ∨
      evaluate_location "LIVE" false "UNKNOWN" 0 = vGhost) :=
  ⟨Or.inl rfl, Or.inr rfl, le_refl 0,
    evaluate_total "LIVE" false "UNKNOWN" 0 (Or.inl rfl) (Or.inr rfl)
      (le_refl 0)⟩

/-- C5: `tierOf` partitions the confidence range [0,100] into three
contiguous ranges with no gaps or overlaps at the boundaries 40 and 80:
a confidence above 80 is POSITIVE, one in (40,80] is CAUTION, one at most
40 is ERROR, and each confidence receives exactly one tier. -/
theorem tierOf_partition (c : Int) (h0 : 0 ≤ c) (h100 : c ≤ 100) :
    (tierOf c = Tier.POSITIVE ↔ 80 < c) ∧
    (tierOf c = Tier.CAUTION ↔ 40 < c ∧ c ≤ 80) ∧
    (tierOf c = Tier.ERROR ↔ c ≤ 40) := by
  unfold tierOf
  split_ifs with h1 h2 <;>
    refine ⟨?_, ?_, ?_⟩ <;> simp_all <;> omega

theorem tierOf_partition_witness :
    (0 : Int) ≤ 50 ∧ (50 : Int) ≤ 100 ∧
    (tierOf 50 = Tier.CAUTION ↔ (40 : Int) < 50 ∧ (50 : Int) ≤ 80) :=
  ⟨by decide, by decide, (tierOf_partition 50 (by decide) (by decide)).2.1⟩

/-- C6: every raw input, valid or not, is handled exactly as its
normalization into the declared domain: unrecognized GPS strings behave as
LIVE, unrecognized mobile strings behave as UNKNOWN, and negative mesh
counts behave as 0, so the decision policy effectively only ever runs on
validated inputs.  The normalized fields always lie in the declared
domain. -/
theorem evaluate_normalized (hw : String) (face : Bool) (mobile : String)
    (mesh : Int) :
    (normalizeHw hw = "LIVE" ∨ normalizeHw hw = "OFFLINE") ∧
    (normalizeMobile mobile = "ON_ROUTE" ∨
      normalizeMobile mobile = "UNKNOWN") ∧
    0 ≤ normalizeMesh mesh ∧
    evaluate_location hw face mobile mesh =
      evaluate_location (normalizeHw hw) face (normalizeMobile mobile)
        (normalizeMesh mesh) := by
  refine ⟨?_, ?_, ?_, ?_⟩
  · unfold normalizeHw
    split_ifs with h <;> simp [h]
  · unfold normalizeMobile
    split_ifs with h <;> simp [h]
  · exact le_max_right mesh 0
  · unfold evaluate_location normalizeHw normalizeMobile normalizeMesh
    split_ifs <;> simp_all <;> omega

/-- C7: `evaluate_location` is deterministic and pure: two calls on
identical snapshots (same GPS status, driver-face flag, mobile status and
mesh count) return identical verdicts. -/
theorem evaluate_deterministic (hw1 hw2 mobile1 mobile2 : String)
    (face1 face2 : Bool) (mesh1 mesh2 : Int)
    (hhw : hw1 = hw2) (hface : face1 = face2) (hmob : mobile1 = mobile2)
    (hmesh : mesh1 = mesh2) :
    evaluate_location hw1 face1 mobile1 mesh1 =
      evaluate_location hw2 face2 mobile2 mesh2 := by
  subst hhw hface hmob hmesh
  rfl

theorem evaluate_deterministic_witness :
    evaluate_location "OFFLINE" true "ON_ROUTE" 5 =
      evaluate_location "OFFLINE" true "ON_ROUTE" 5 :=
  evaluate_deterministic "OFFLINE" "OFFLINE" "ON_ROUTE" "ON_ROUTE"
    true true 5 5 rfl rfl rfl rfl

/-- C8: the message is fixed per status label: whenever two evaluations
return the same status label, they return the same message string. -/
theorem message_fixed_per_status (hw1 hw2 mobile1 mobile2 : String)
    (face1 face2 : Bool) (mesh1 mesh2 : Int)
    (h : (evaluate_location hw1 face1 mobile1 mesh1).status =
      (evaluate_location hw2 face2 mobile2 mesh2).status) :
    (evaluate_location hw1 face1 mobile1 mesh1).message =
      (evaluate_location hw2 face2 mobile2 mesh2).message := by
  rcases evaluate_cases hw1 face1 mobile1 mesh1 with h1 | h1 | h1 | h1 | h1 <;>
    rcases evaluate_cases hw2 face2 mobile2 mesh2 with h2 | h2 | h2 | h2 | h2 <;>
    rw [h1, h2] at h ⊢ <;>
    first
      | rfl
      | exact absurd h (by decide)

theorem message_fixed_per_status_witness :
    (evaluate_location "LIVE" true "ON_ROUTE" 3).status =
      (evaluate_location "BANANA" false "UNKNOWN" 0).status ∧
    (evaluate_location "LIVE" true "ON_ROUTE" 3).message =
      (evaluate_location "BANANA" false "UNKNOWN" 0).message :=
  ⟨rfl, message_fixed_per_status "LIVE" "BANANA" "ON_ROUTE" "UNKNOWN"
    true false 3 0 rfl⟩

/-- C9: on the declared domain, the confidence returned by
`evaluate_location` is one of the five values 5, 45, 75, 98, 100, and equal
confidences force equal status labels and equal messages, so the confidence
determines the whole verdict. -/
theorem confidence_determines_verdict (hw1 hw2 mobile1 mobile2 : String)
    (face1 face2 : Bool) (mesh1 mesh2 : Int)
    (hhw : hw1 = "LIVE" ∨ hw1 = "OFFLINE")
    (hmob : mobile1 = "ON_ROUTE" ∨ mobile1 = "UNKNOWN")
    (hmesh : 0 ≤ mesh1) :
    ((evaluate_location hw1 face1 mobile1 mesh1).confidence = 5 ∨
      (evaluate_location hw1 face1 mobile1 mesh1).confidence = 45 ∨
      (evaluate_location hw1 face1 mobile1 mesh1).confidence = 75 ∨
      (evaluate_location hw1 face1 mobile1 mesh1).confidence = 98 ∨
      (evaluate_location hw1 face1 mobile1 mesh1).confidence = 100) ∧
    ((evaluate_location hw1 face1 mobile1 mesh1).confidence =
        (evaluate_location hw2 face2 mobile2 mesh2).confidence →
      (evaluate_location hw1 face1 mobile1 mesh1).status =
          (evaluate_location hw2 face2 mobile2 mesh2).status ∧
        (evaluate_location hw1 face1 mobile1 mesh1).message =
          (evaluate_location hw2 face2 mobile2 mesh2).message) := by
  constructor
  · rcases evaluate_cases hw1 face1 mobile1 mesh1 with h1 | h1 | h1 | h1 | h1 <;>
      rw [h1] <;> simp [vLive, vMesh, vProbable, vUncertain, vGhost]
  · intro h
    rcases evaluate_cases hw1 face1 mobile1 mesh1 with h1 | h1 | h1 | h1 | h1 <;>
      rcases evaluate_cases hw2 face2 mobile2 mesh2 with h2 | h2 | h2 | h2 | h2 <;>
      rw [h1, h2] at h ⊢ <;>
      first
        | exact ⟨rfl, rfl⟩
        | exact absurd h (by decide)

theorem confidence_determines_verdict_witness :
    (("OFFLINE" : String) = "LIVE" ∨ ("OFFLINE" : String) = "OFFLINE") ∧
    (("ON_ROUTE" : String) = "ON_ROUTE" ∨
      ("ON_ROUTE" : String) = "UNKNOWN") ∧
    (0 : Int) ≤ 4 ∧
    ((evaluate_location "OFFLINE" true "ON_ROUTE" 4).confidence = 5 ∨
      (evaluate_location "OFFLINE" true "ON_ROUTE" 4).confidence = 45 ∨
      (evaluate_location "OFFLINE" true "ON_ROUTE" 4).confidence = 75 ∨
      (evaluate_location "OFFLINE" true "ON_ROUTE" 4).confidence = 98 ∨
      (evaluate_location "OFFLINE" true "ON_ROUTE" 4).confidence = 100) ∧
    ((evaluate_location "OFFLINE" true "ON_ROUTE" 4).confidence =
        (evaluate_location "OFFLINE" true "ON_ROUTE" 7).confidence →
      (evaluate_location "OFFLINE" true "ON_ROUTE" 4).status =
          (evaluate_location "OFFLINE" true "ON_ROUTE" 7).status ∧
        (evaluate_location "OFFLINE" true "ON_ROUTE" 4).message =
          (evaluate_location "OFFLINE" true "ON_ROUTE" 7).message) :=
  ⟨Or.inr rfl, Or.inl rfl, by decide,
    (confidence_determines_verdict "OFFLINE" "OFFLINE" "ON_ROUTE" "ON_ROUTE"
      true true 4 7 (Or.inr rfl) (Or.inl rfl) (by decide)).1,
    (confidence_determines_verdict "OFFLINE" "OFFLINE" "ON_ROUTE" "ON_ROUTE"
      true true 4 7 (Or.inr rfl) (Or.inl rfl) (by decide)).2⟩

/-- C10: for every GPS status other than the exact string "OFFLINE" —
including unrecognized values that are neither "LIVE" nor "OFFLINE" —
`evaluate_location` returns the hardware-live verdict (confidence 100,
label "HARDWARE LIVE") for all values of the other three arguments: the
code performs no enum validation and defaults unknown GPS statuses to full
trust. -/
theorem evaluate_nonoffline_full_trust (hw : String) (face : Bool)
    (mobile : String) (mesh : Int) (h : hw ≠ "OFFLINE") :
    evaluate_location hw face mobile mesh = vLive := by
  unfold evaluate_location
  rw [if_neg h]
  rfl

theorem evaluate_nonoffline_full_trust_witness :
    ("BANANA" : String) ≠ "OFFLINE" ∧
    evaluate_location "BANANA" false "UNKNOWN" 20 = vLive :=
  ⟨by decide,
    evaluate_nonoffline_full_trust "BANANA" false "UNKNOWN" 20 (by decide)⟩
